import Mathlib

/-!
Verification development for the TRI profile-scraping repository.
Shallow embedding of the extraction, validation, discovery, pacing and
navigation logic, translated from the Python sources under src/.
-/

namespace TRI

/-! ## String helpers mirroring Python primitives -/

/-- List-of-chars prefix test. -/
def isPrefixChars : List Char → List Char → Bool
  | [], _ => true
  | _ :: _, [] => false
  | a :: as, b :: bs => a == b && isPrefixChars as bs

/-- List-of-chars infix test, scanning every start position. -/
def isInfixChars (needle : List Char) : List Char → Bool
  | [] => isPrefixChars needle []
  | b :: bs => isPrefixChars needle (b :: bs) || isInfixChars needle bs

/-- Python substring containment: needle in hay. -/
def containsSub (needle hay : String) : Bool :=
  isInfixChars needle.toList hay.toList

/-- Python str.lower for the ASCII texts handled here. -/
def pyLower (s : String) : String := String.mk (s.toList.map Char.toLower)

/-- The whitespace set of Python str.strip and of the regex class backslash-s. -/
def pyWhitespace (c : Char) : Bool :=
  c == ' ' || c == '\t' || c == '\n' || c == '\r' ||
  c == Char.ofNat 11 || c == Char.ofNat 12

/-- Python str.strip (whitespace on both ends). -/
def pyStrip (s : String) : String :=
  String.mk (((s.toList.dropWhile pyWhitespace).reverse.dropWhile
    pyWhitespace).reverse)

/-- Python any(c.isdigit() for c in line). -/
def hasDigit (s : String) : Bool := s.toList.any Char.isDigit

/-- Split a character list at every occurrence of the separator character,
keeping empty segments, as Python str.split with a one-character
separator does. -/
def splitCharAux (sep : Char) : List Char → List Char → List (List Char)
  | [], acc => [acc.reverse]
  | c :: cs, acc =>
    if c == sep then acc.reverse :: splitCharAux sep cs []
    else splitCharAux sep cs (c :: acc)

/-- Python text.split of a string on the newline character. -/
def pyLines (s : String) : List String :=
  (splitCharAux '\n' s.toList []).map String.mk

/-- Python str.startswith. -/
def pyStartsWith (pre s : String) : Bool := isPrefixChars pre.toList s.toList

/-- Python str.rstrip with an explicit character set. -/
def pyRstripSet (cs : List Char) (s : String) : String :=
  String.mk ((s.toList.reverse.dropWhile (fun c => cs.contains c)).reverse)

/-- Python '\n'.join. -/
def pyJoinLines : List String → String
  | [] => ""
  | [l] => l
  | l :: ls => l ++ "\n" ++ pyJoinLines ls

/-! ## A small regex engine modelling Python re

parse_contact_info and _extract_contact_info_from_page classify text with
Python regular expressions.  The engine below implements the constructs
those patterns use (literals, character classes, alternation, greedy
bounded and unbounded repetition, one capturing group, anchors, word
boundary, lookahead, IGNORECASE and MULTILINE) with Python backtracking
order: leftmost match, first alternative preferred, greedy repetition
tries longer first.  Each source pattern is transcribed node by node
further below.  Matching uses a fuel bound on recursion depth only;
the fuel chosen is far above the depth any pattern here can reach. -/

/-- Python regex word character (ASCII texts): letter, digit or underscore. -/
def isWordChar (c : Char) : Bool := c.isAlphanum || c == '_'

inductive ClsItem where
  | ch (c : Char)
  | range (lo hi : Char)
  | digit
  | word
  | space
deriving DecidableEq, Repr

/-- Membership of a character in one class item, honouring IGNORECASE. -/
def ClsItem.matchesChar (ign : Bool) (it : ClsItem) (c : Char) : Bool :=
  match it with
  | .ch a => c == a || (ign && c.toLower == a.toLower)
  | .range lo hi =>
    (decide (lo ≤ c) && decide (c ≤ hi)) ||
    (ign && ((decide (lo ≤ c.toLower) && decide (c.toLower ≤ hi)) ||
             (decide (lo ≤ c.toUpper) && decide (c.toUpper ≤ hi))))
  | .digit => c.isDigit
  | .word => isWordChar c
  | .space => pyWhitespace c

inductive RE where
  | eps
  | lit (c : Char)
  | cls (neg : Bool) (items : List ClsItem)
  | seq (a b : RE)
  | alt (a b : RE)
  | rep (r : RE) (lo : Nat) (hi : Option Nat)
  | grp (r : RE)
  | bol
  | eol
  | wordB
  | look (r : RE)
deriving DecidableEq, Repr

def charAt (inp : List Char) (i : Nat) : Option Char := inp.get? i

/-- Backtracking matcher in continuation-passing style.  Arguments:
fuel, regex, position, current group-1 span, continuation.  Returns the
end position and group-1 span of the first overall success in Python
backtracking order.  Our patterns contain at most one capturing group. -/
def mMatch (inp : List Char) (ign ml : Bool) :
    Nat → RE → Nat → Option (Nat × Nat) →
    (Nat → Option (Nat × Nat) → Option (Nat × Option (Nat × Nat))) →
    Option (Nat × Option (Nat × Nat))
  | 0, _, _, _, _ => none
  | fuel+1, r, pos, cap, k =>
    match r with
    | .eps => k pos cap
    | .lit c =>
      match charAt inp pos with
      | some d =>
        if d == c || (ign && d.toLower == c.toLower) then k (pos+1) cap
        else none
      | none => none
    | .cls neg items =>
      match charAt inp pos with
      | some d =>
        if (items.any (fun it => it.matchesChar ign d)) != neg then
          k (pos+1) cap
        else none
      | none => none
    | .seq a b =>
      mMatch inp ign ml fuel a pos cap
        (fun p c => mMatch inp ign ml fuel b p c k)
    | .alt a b =>
      match mMatch inp ign ml fuel a pos cap k with
      | some res => some res
      | none => mMatch inp ign ml fuel b pos cap k
    | .rep r lo hi =>
      if lo > 0 then
        mMatch inp ign ml fuel r pos cap (fun p c =>
          mMatch inp ign ml fuel (.rep r (lo-1) (hi.map (fun n => n-1)))
            p c k)
      else
        match hi with
        | some 0 => k pos cap
        | _ =>
          match mMatch inp ign ml fuel r pos cap (fun p c =>
              if pos < p then
                mMatch inp ign ml fuel (.rep r 0 (hi.map (fun n => n-1)))
                  p c k
              else k p c) with
          | some res => some res
          | none => k pos cap
    | .grp r =>
      mMatch inp ign ml fuel r pos cap (fun p _ => k p (some (pos, p)))
    | .bol =>
      if pos == 0 || (ml && charAt inp (pos-1) == some '\n') then k pos cap
      else none
    | .eol =>
      if pos == inp.length || (ml && charAt inp pos == some '\n') then
        k pos cap
      else none
    | .wordB =>
      let before :=
        if pos == 0 then false
        else
          match charAt inp (pos-1) with
          | some c => isWordChar c
          | none => false
      let after :=
        match charAt inp pos with
        | some c => isWordChar c
        | none => false
      if before != after then k pos cap else none
    | .look r =>
      match mMatch inp ign ml fuel r pos cap (fun p c => some (p, c)) with
      | some _ => k pos cap
      | none => none

/-- Fuel: a depth bound well above what any transcribed pattern reaches. -/
def reFuel (inp : List Char) : Nat := 2 * inp.length * inp.length + 2000

/-- Try to match the regex starting exactly at pos. -/
def reMatchAt (inp : List Char) (ign ml : Bool) (r : RE) (pos : Nat) :
    Option (Nat × Option (Nat × Nat)) :=
  mMatch inp ign ml (reFuel inp) r pos none (fun p c => some (p, c))

/-- Python re scanning: leftmost non-overlapping matches, continuing from
each match end (advancing one character after an empty match). -/
def reScan (inp : List Char) (ign ml : Bool) (r : RE) :
    Nat → Nat → List (Nat × Nat × Option (Nat × Nat))
  | 0, _ => []
  | b+1, pos =>
    if pos ≤ inp.length then
      match reMatchAt inp ign ml r pos with
      | some (e, cap) =>
        (pos, e, cap) :: reScan inp ign ml r b (if pos < e then e else pos+1)
      | none => reScan inp ign ml r b (pos+1)
    else []

def subStr (inp : List Char) (s e : Nat) : String :=
  String.mk ((inp.drop s).take (e - s))

/-- re.findall for a pattern with no capturing group: full match texts. -/
def reFindAll0 (ign ml : Bool) (r : RE) (s : String) : List String :=
  let inp := s.toList
  (reScan inp ign ml r (inp.length + 2) 0).map (fun m => subStr inp m.1 m.2.1)

/-- re.findall for a pattern with exactly one capturing group: the
captured texts. -/
def reFindAll1 (ign ml : Bool) (r : RE) (s : String) : List String :=
  let inp := s.toList
  (reScan inp ign ml r (inp.length + 2) 0).map (fun m =>
    match m.2.2 with
    | some (cs, ce) => subStr inp cs ce
    | none => "")

/-- re.search: the first match text, if any. -/
def reSearch (ign ml : Bool) (r : RE) (s : String) : Option String :=
  let inp := s.toList
  match reScan inp ign ml r (inp.length + 2) 0 with
  | [] => none
  | m :: _ => some (subStr inp m.1 m.2.1)

/-! Smart constructors for transcribing the source patterns. -/

def rcat : List RE → RE
  | [] => .eps
  | [r] => r
  | r :: rs => .seq r (rcat rs)

def rstr (s : String) : RE := rcat (s.toList.map RE.lit)

def ralts : List RE → RE
  | [] => .cls false []
  | [r] => r
  | r :: rs => .alt r (ralts rs)

def rep0 (r : RE) : RE := .rep r 0 none
def rep1 (r : RE) : RE := .rep r 1 none
def ropt (r : RE) : RE := .rep r 0 (some 1)
def repN (r : RE) (lo hi : Nat) : RE := .rep r lo (some hi)
def repAtLeast (r : RE) (lo : Nat) : RE := .rep r lo none
def repExact (r : RE) (n : Nat) : RE := .rep r n (some n)

def clsAZ : ClsItem := .range 'A' 'Z'
def clsaz : ClsItem := .range 'a' 'z'
def cls09 : ClsItem := .range '0' '9'

/-! ## DataExtractor._extract_experience (src/scraper/data_extractor.py:344-383)

The extractor splits the page text into lines and runs a single pass:
a header line opens the section, a stop-section line flushes and breaks,
and inside the section a line free of noise tokens and longer than 5
characters always opens a new entry; only noisy or short lines can fill
the secondary slots of the current entry. -/

structure Experience where
  title : String
  company : Option String
  duration : Option String
  description : Option String
deriving DecidableEq, Repr

def expSectionHeaders : List String :=
  ["experience", "work experience", "professional experience"]

def expStopSections : List String :=
  ["education", "skills", "licenses", "certifications", "projects",
   "languages", "recommendations"]

def expNoiseTokens : List String := ["http", "follow", "endorse", "button"]

/-- Flush of current_exp: appended only when it exists and its title is
truthy (Python: if current_exp and current_exp.get('title')). -/
def expFlush (cur : Option Experience) : List Experience :=
  match cur with
  | some e => if e.title ≠ "" then [e] else []
  | none => []

/-- Secondary-slot fill: company if absent and (Inc / Ltd / comma present or
len > 20), else duration if absent and the line has a digit, else
description if absent and len > 10. -/
def expFillSecondary (e : Experience) (line : String) : Experience :=
  if e.company = none ∧
      ((containsSub "Inc" line || containsSub "Ltd" line ||
        containsSub "," line) || line.length > 20) then
    { e with company := some line }
  else if e.duration = none ∧ hasDigit line then
    { e with duration := some line }
  else if e.description = none ∧ line.length > 10 then
    { e with description := some line }
  else e

/-- The line loop of _extract_experience. State: started flag, the
current entry, the accumulated entries.  Returns the accumulated
entries together with current_exp as it stands when the loop exits:
the stop-section branch appends the current entry and breaks WITHOUT
clearing current_exp, and the code then flushes current_exp once more
after the loop, so a break duplicates the final entry. -/
def expLoopCore : List String → Bool → Option Experience →
    List Experience → List Experience × Option Experience
  | [], _, cur, acc => (acc, cur)
  | l :: ls, started, cur, acc =>
    let lineClean := pyLower (pyStrip l)
    if expSectionHeaders.any (fun h => containsSub h lineClean) ∧ ¬ started then
      expLoopCore ls true cur acc
    else if started ∧ expStopSections.any (fun s => containsSub s lineClean) then
      (acc ++ expFlush cur, cur)
    else if started ∧ l ≠ "" then
      if (¬ expNoiseTokens.any (fun c => containsSub c (pyLower l))) ∧
          l.length > 5 then
        expLoopCore ls started (some ⟨l, none, none, none⟩)
          (acc ++ expFlush cur)
      else
        match cur with
        | some e => expLoopCore ls started (some (expFillSecondary e l)) acc
        | none => expLoopCore ls started none acc
    else
      expLoopCore ls started cur acc

/-- The loop followed by the post-loop flush of current_exp. -/
def expRun (lines : List String) : List Experience :=
  (expLoopCore lines false none []).1 ++
    expFlush (expLoopCore lines false none []).2

/-- The function _extract_experience: split on newline, one pass of the
loop, then the final flush. -/
def extractExperience (allText : String) : List Experience :=
  expRun (pyLines allText)

/-! ## Pattern transcriptions for parse_contact_info
(src/scraper/data_extractor.py:625-858) and
_extract_contact_info_from_page (578-623).  Each definition transcribes
one Python regex literal node by node. -/

/-- Pattern [a-zA-Z0-9._%+-]+@[a-zA-Z0-9.-]+\.[a-zA-Z]{2,} -/
def emailPattern : RE :=
  rcat [rep1 (.cls false [clsaz, clsAZ, cls09, .ch '.', .ch '_', .ch '%',
          .ch '+', .ch '-']),
        .lit '@',
        rep1 (.cls false [clsaz, clsAZ, cls09, .ch '.', .ch '-']),
        .lit '.',
        repAtLeast (.cls false [clsaz, clsAZ]) 2]

/-- The shared phone body \+?[\d\s.\-()]{8,} -/
def phoneBody : RE :=
  rcat [ropt (.lit '+'),
        repAtLeast (.cls false [.digit, .space, .ch '.', .ch '-', .ch '(',
          .ch ')']) 8]

/-- Pattern (?:phone|tel|mobile)[:\s]+(\+?[\d\s.\-()]{8,}) -/
def phonePattern1 : RE :=
  rcat [ralts [rstr "phone", rstr "tel", rstr "mobile"],
        rep1 (.cls false [.ch ':', .space]),
        .grp phoneBody]

/-- Pattern \+[\d]{1,3}[\d\s.\-()]{8,} -/
def phonePattern2 : RE :=
  rcat [.lit '+', repN (.cls false [.digit]) 1 3,
        repAtLeast (.cls false [.digit, .space, .ch '.', .ch '-', .ch '(',
          .ch ')']) 8]

/-- Pattern (?:^|\s)[\d]{3}[-.]?[\d]{3}[-.]?[\d]{4}(?:\s|$) -/
def phonePattern3 : RE :=
  rcat [ralts [.bol, .cls false [.space]],
        repExact (.cls false [.digit]) 3,
        ropt (.cls false [.ch '-', .ch '.']),
        repExact (.cls false [.digit]) 3,
        ropt (.cls false [.ch '-', .ch '.']),
        repExact (.cls false [.digit]) 4,
        ralts [.cls false [.space], .eol]]

/-- Pattern (?:^|\s)\([\d]{3}\)[\s]?[\d]{3}[-.][\d]{4}(?:\s|$) -/
def phonePattern4 : RE :=
  rcat [ralts [.bol, .cls false [.space]],
        .lit '(', repExact (.cls false [.digit]) 3, .lit ')',
        ropt (.cls false [.space]),
        repExact (.cls false [.digit]) 3,
        .cls false [.ch '-', .ch '.'],
        repExact (.cls false [.digit]) 4,
        ralts [.cls false [.space], .eol]]

/-- Pattern (?:https?://)?(?:www\.)?linkedin\.com/in/[\w\-]+ -/
def linkedinUrlPattern : RE :=
  rcat [ropt (rcat [rstr "http", ropt (.lit 's'), rstr "://"]),
        ropt (rstr "www."),
        rstr "linkedin.com/in/",
        rep1 (.cls false [.word, .ch '-'])]

/-- linkedin\.com/in/([\w\-]+) -/
def linkedinUserPattern : RE :=
  rcat [rstr "linkedin.com/in/", .grp (rep1 (.cls false [.word, .ch '-']))]

/-- https?://(?:www\.)?github\.com/[\w\-]+|github\.com/[\w\-]+ -/
def githubPattern : RE :=
  .alt (rcat [rstr "http", ropt (.lit 's'), rstr "://", ropt (rstr "www."),
          rstr "github.com/", rep1 (.cls false [.word, .ch '-'])])
       (rcat [rstr "github.com/", rep1 (.cls false [.word, .ch '-'])])

/-- https?://[^\s<>")]+ -/
def allUrlsPattern : RE :=
  rcat [rstr "http", ropt (.lit 's'), rstr "://",
        rep1 (.cls true [.space, .ch '<', .ch '>', .ch '"', .ch ')'])]

/-- The TLD allow-list alternation of the bare-domain pattern, in source
order (including the duplicated entry for in). -/
def domainTlds : List String :=
  ["ac.bd", "com", "org", "net", "edu", "io", "co", "bd", "wordpress.com",
   "github.io", "dev", "app", "in", "us", "uk", "au", "ca", "de", "fr",
   "jp", "cn", "ru", "in", "tv", "xyz", "info", "biz", "name", "me", "cc"]

/-- Pattern \b([a-zA-Z0-9][\w\-]{0,62}(?:\.[a-zA-Z0-9][\w\-]{0,62})*\.(?:TLDs))\b -/
def domainPattern : RE :=
  rcat [.wordB,
        .grp (rcat [.cls false [clsaz, clsAZ, cls09],
                repN (.cls false [.word, .ch '-']) 0 62,
                rep0 (rcat [.lit '.', .cls false [clsaz, clsAZ, cls09],
                  repN (.cls false [.word, .ch '-']) 0 62]),
                .lit '.',
                ralts (domainTlds.map rstr)]),
        .wordB]

/-- Pattern (?:twitter\.com/|@)([\w\-]{1,15})  (named group in source) -/
def twitterPattern1 : RE :=
  rcat [.alt (rstr "twitter.com/") (rstr "@"),
        .grp (repN (.cls false [.word, .ch '-']) 1 15)]

/-- https?://(?:www\.)?twitter\.com/[\w\-]+ -/
def twitterPattern2 : RE :=
  rcat [rstr "http", ropt (.lit 's'), rstr "://", ropt (rstr "www."),
        rstr "twitter.com/", rep1 (.cls false [.word, .ch '-'])]

/-- Pattern (?:instagram\.com/|instagram\s+handle\s*:\s*)([\w\.]{1,30}) -/
def instagramPattern1 : RE :=
  rcat [.alt (rstr "instagram.com/")
             (rcat [rstr "instagram", rep1 (.cls false [.space]),
                rstr "handle", rep0 (.cls false [.space]), .lit ':',
                rep0 (.cls false [.space])]),
        .grp (repN (.cls false [.word, .ch '.']) 1 30)]

/-- instagram\s*:\s*([\w\.]+) -/
def instagramPattern2 : RE :=
  rcat [rstr "instagram", rep0 (.cls false [.space]), .lit ':',
        rep0 (.cls false [.space]),
        .grp (rep1 (.cls false [.word, .ch '.']))]

/-- Pattern (?:facebook\.com/|facebook\s+:\s*)([\w\.\-]+) -/
def facebookPattern1 : RE :=
  rcat [.alt (rstr "facebook.com/")
             (rcat [rstr "facebook", rep1 (.cls false [.space]), .lit ':',
                rep0 (.cls false [.space])]),
        .grp (rep1 (.cls false [.word, .ch '.', .ch '-']))]

/-- facebook\s*:\s*([\w\.\-]+) -/
def facebookPattern2 : RE :=
  rcat [rstr "facebook", rep0 (.cls false [.space]), .lit ':',
        rep0 (.cls false [.space]),
        .grp (rep1 (.cls false [.word, .ch '.', .ch '-']))]

/-- Pattern (?:whatsapp|wa\.me)[:\s/]+(\+?[\d\s.\-()]{8,}) -/
def whatsappPattern1 : RE :=
  rcat [.alt (rstr "whatsapp") (rstr "wa.me"),
        rep1 (.cls false [.ch ':', .space, .ch '/']),
        .grp phoneBody]

/-- whatsapp\s*:\s*(\+?[\d\s.\-()]+) -/
def whatsappPattern2 : RE :=
  rcat [rstr "whatsapp", rep0 (.cls false [.space]), .lit ':',
        rep0 (.cls false [.space]),
        .grp (rcat [ropt (.lit '+'),
          rep1 (.cls false [.digit, .space, .ch '.', .ch '-', .ch '(',
            .ch ')'])])]

/-- Pattern (?:telegram|t\.me)[:\s/]+([\w\-]{5,}) -/
def telegramPattern1 : RE :=
  rcat [.alt (rstr "telegram") (rstr "t.me"),
        rep1 (.cls false [.ch ':', .space, .ch '/']),
        .grp (repAtLeast (.cls false [.word, .ch '-']) 5)]

/-- telegram\s*:\s*([\w\-]+) -/
def telegramPattern2 : RE :=
  rcat [rstr "telegram", rep0 (.cls false [.space]), .lit ':',
        rep0 (.cls false [.space]),
        .grp (rep1 (.cls false [.word, .ch '-']))]

/-- Pattern (?:birthday|born|dob|date of birth)[:\s]+([A-Za-z]+\s+\d{1,2}) -/
def birthdayPattern1 : RE :=
  rcat [ralts [rstr "birthday", rstr "born", rstr "dob",
          rstr "date of birth"],
        rep1 (.cls false [.ch ':', .space]),
        .grp (rcat [rep1 (.cls false [clsAZ, clsaz]),
          rep1 (.cls false [.space]), repN (.cls false [.digit]) 1 2])]

/-- Pattern \b([A-Za-z]+\s+\d{1,2})\b(?=\s|$) -/
def birthdayPattern2 : RE :=
  rcat [.wordB,
        .grp (rcat [rep1 (.cls false [clsAZ, clsaz]),
          rep1 (.cls false [.space]), repN (.cls false [.digit]) 1 2]),
        .wordB,
        .look (ralts [.cls false [.space], .eol])]

/-- Pattern of digit groups separated by dash or slash: backslash-d{1,2} [dash slash] twice, then backslash-d{2,4} -/
def birthdayPattern3 : RE :=
  .grp (rcat [repN (.cls false [.digit]) 1 2,
        .cls false [.ch '-', .ch '/'],
        repN (.cls false [.digit]) 1 2,
        .cls false [.ch '-', .ch '/'],
        repN (.cls false [.digit]) 2 4])

/-- Pattern ([A-Za-z]+\s+\d{1,2},?\s+\d{4}) -/
def birthdayPattern4 : RE :=
  .grp (rcat [rep1 (.cls false [clsAZ, clsaz]),
        rep1 (.cls false [.space]),
        repN (.cls false [.digit]) 1 2,
        ropt (.lit ','),
        rep1 (.cls false [.space]),
        repExact (.cls false [.digit]) 4])

/-- Pattern (?:skype)[:\s]+([\w\-\.]+) -/
def skypePattern1 : RE :=
  rcat [rstr "skype", rep1 (.cls false [.ch ':', .space]),
        .grp (rep1 (.cls false [.word, .ch '-', .ch '.']))]

/-- skype\s*:\s*([\w\-\.]+) -/
def skypePattern2 : RE :=
  rcat [rstr "skype", rep0 (.cls false [.space]), .lit ':',
        rep0 (.cls false [.space]),
        .grp (rep1 (.cls false [.word, .ch '-', .ch '.']))]

/-- https?://(?:www\.)?youtube\.com/(?:channel/|c/|user/)?[\w\-]+ -/
def youtubePattern : RE :=
  rcat [rstr "http", ropt (.lit 's'), rstr "://", ropt (rstr "www."),
        rstr "youtube.com/",
        ropt (ralts [rstr "channel/", rstr "c/", rstr "user/"]),
        rep1 (.cls false [.word, .ch '-'])]

/-- The twitter-profile pattern is repeated literally in the source. -/
def twitterUrlPattern : RE := twitterPattern2

/-- https?://(?:www\.)?linkedin\.com/in/[\w\-]+  (page fallback) -/
def pageLinkedinPattern1 : RE :=
  rcat [rstr "http", ropt (.lit 's'), rstr "://", ropt (rstr "www."),
        rstr "linkedin.com/in/", rep1 (.cls false [.word, .ch '-'])]

/-- linkedin\.com/in/[\w\-]+  (page fallback, no scheme) -/
def pageLinkedinPattern2 : RE :=
  rcat [rstr "linkedin.com/in/", rep1 (.cls false [.word, .ch '-'])]

/-! ## DataExtractor.parse_contact_info (src/scraper/data_extractor.py:625-858)

The parsed contact info is modelled as an association list in the
insertion order of the Python dict.  CPython set iteration order is
unspecified; list(set(...)) is modelled as first-occurrence
deduplication, and every theorem below that fixes exact contents only
meets sets with at most one element, where all orders agree. -/

inductive Val where
  | vs (s : String)
  | vl (l : List String)
deriving DecidableEq, Repr

abbrev CDict := List (String × Val)

/-- First-occurrence deduplication (model of list(set(...))). -/
def dedupFirst : List String → List String → List String
  | [], _ => []
  | x :: xs, seen =>
    if seen.contains x then dedupFirst xs seen
    else x :: dedupFirst xs (x :: seen)

def pySet (l : List String) : List String := dedupFirst l []

def contactMarkers : List String :=
  ["about", "experience", "education", "skills", "recommendations",
   "causes"]

/-- The raw-text cleaning pass: locate a line containing contact info,
keep the stripped nonempty lines that follow until a section marker, and
rejoin them; fall back to the original text when nothing is kept. -/
def cleanContactText (contactText : String) : String :=
  let lines := pyLines contactText
  match lines.findIdx? (fun l => containsSub "contact info" (pyLower l)) with
  | none => contactText
  | some i =>
    let rest := (lines.drop (i+1)).takeWhile
      (fun l => ¬ contactMarkers.any (fun m => containsSub m (pyLower l)))
    let keep := rest.filterMap (fun l =>
      let t := pyStrip l
      if t ≠ "" ∧ t.length > 1 then some t else none)
    if keep ≠ [] then pyJoinLines keep else contactText

def validMonths : List String :=
  ["january", "february", "march", "april", "may", "june",
   "july", "august", "september", "october", "november", "december",
   "jan", "feb", "mar", "apr", "may", "jun", "jul", "aug", "sep", "oct",
   "nov", "dec"]

/-- The function parse_contact_info: empty input returns the empty
mapping; otherwise the text is cleaned and every category classifier
runs, each category value being the matches found or the single-element
placeholder list when nothing matched. -/
def parseContactInfo (contactText0 : String) : CDict :=
  if contactText0 = "" then []
  else
    let contactText := cleanContactText contactText0
    let emails := reFindAll0 false false emailPattern contactText
    let phones := reFindAll1 true true phonePattern1 contactText ++
                  reFindAll0 true true phonePattern2 contactText ++
                  reFindAll0 true true phonePattern3 contactText ++
                  reFindAll0 true true phonePattern4 contactText
    let linkedinUrls0 := reFindAll0 true false linkedinUrlPattern contactText
    let linkedinUsernames :=
      reFindAll1 true false linkedinUserPattern contactText
    let linkedinUrls1 := pySet (linkedinUrls0.map (fun u =>
      if pyStartsWith "http" u then u else "https://" ++ u))
    let linkedinUrls2 := linkedinUsernames.foldl (fun acc username =>
      let fullUrl := "https://linkedin.com/in/" ++ username
      if acc.contains fullUrl then acc else acc ++ [fullUrl]) linkedinUrls1
    let githubUrls := (reFindAll0 true false githubPattern contactText).map
      (fun u => if pyStartsWith "http" u then u else "https://" ++ u)
    let allUrls := reFindAll0 false false allUrlsPattern contactText
    let websites0 := allUrls.filterMap (fun url =>
      if ¬ (["linkedin", "github"].any
              (fun x => containsSub x (pyLower url))) then
        let url2 := pyRstripSet ['.', ',', ';', ':', '\'', '"', ')'] url
        if url2.length > 7 then some url2 else none
      else none)
    let domains := reFindAll1 true true domainPattern contactText
    let filteredDomains := domains.filter (fun d =>
      ¬ (["linkedin", "github", "facebook", "twitter", "instagram",
          "youtube", "corp"].any (fun x => containsSub x (pyLower d))))
    let websites := websites0 ++ filteredDomains
    let twitterHandles :=
      reFindAll1 true false twitterPattern1 contactText ++
      reFindAll0 true false twitterPattern2 contactText
    let instaHandles :=
      reFindAll1 true false instagramPattern1 contactText ++
      reFindAll1 true false instagramPattern2 contactText
    let fbHandles :=
      reFindAll1 true false facebookPattern1 contactText ++
      reFindAll1 true false facebookPattern2 contactText
    let whatsappNums :=
      reFindAll1 true false whatsappPattern1 contactText ++
      reFindAll1 true false whatsappPattern2 contactText
    let tgHandles :=
      reFindAll1 true false telegramPattern1 contactText ++
      reFindAll1 true false telegramPattern2 contactText
    let birthdays0 :=
      reFindAll1 true true birthdayPattern1 contactText ++
      reFindAll1 true true birthdayPattern2 contactText ++
      reFindAll1 true true birthdayPattern3 contactText ++
      reFindAll1 true true birthdayPattern4 contactText
    let birthdays := birthdays0.filter (fun b =>
      validMonths.any (fun m => containsSub m (pyLower b)))
    let skypeHandles :=
      reFindAll1 true false skypePattern1 contactText ++
      reFindAll1 true false skypePattern2 contactText
    let youtubeUrls := reFindAll0 true false youtubePattern contactText
    let twitterUrls := reFindAll0 true false twitterUrlPattern contactText
    let linkedinUrlsV :=
      if linkedinUrls2.isEmpty then ["N/A"] else pySet linkedinUrls2
    let primaryLinkedin :=
      match linkedinUrlsV with
      | h :: _ => if h ≠ "N/A" then h else "N/A"
      | [] => "N/A"
    [("raw_text", Val.vs contactText),
     ("emails", Val.vl (if emails.isEmpty then ["N/A"] else emails)),
     ("phones", Val.vl (if phones.isEmpty then ["N/A"]
        else pySet (phones.map pyStrip))),
     ("linkedin_urls", Val.vl linkedinUrlsV),
     ("github_urls", Val.vl (if githubUrls.isEmpty then ["N/A"]
        else pySet githubUrls)),
     ("websites", Val.vl (if websites.isEmpty then ["N/A"]
        else pySet websites)),
     ("twitter", Val.vl (if twitterHandles.isEmpty then ["N/A"]
        else pySet twitterHandles)),
     ("instagram", Val.vl (if instaHandles.isEmpty then ["N/A"]
        else pySet instaHandles)),
     ("facebook", Val.vl (if fbHandles.isEmpty then ["N/A"]
        else pySet fbHandles)),
     ("whatsapp", Val.vl (if whatsappNums.isEmpty then ["N/A"]
        else pySet (whatsappNums.map pyStrip))),
     ("telegram", Val.vl (if tgHandles.isEmpty then ["N/A"]
        else pySet tgHandles)),
     ("birthday", Val.vl (if birthdays.isEmpty then ["N/A"]
        else pySet (birthdays.map pyStrip))),
     ("skype", Val.vl (if skypeHandles.isEmpty then ["N/A"]
        else pySet skypeHandles)),
     ("youtube", Val.vl (if youtubeUrls.isEmpty then ["N/A"]
        else pySet youtubeUrls)),
     ("twitter_url", Val.vl (if twitterUrls.isEmpty then ["N/A"]
        else pySet twitterUrls)),
     ("linkedin_url", Val.vs primaryLinkedin)]

/-- The except branch of parse_contact_info (lines 856-858): on an
internal parsing exception the function returns only the raw text and
the exception text, or an empty mapping when the input was empty. -/
def parseContactInfoOnError (contactText err : String) : CDict :=
  if contactText ≠ "" then
    [("raw_text", Val.vs contactText), ("error", Val.vs err)]
  else []

/-- The category keys of the contact-info sub-record named by the spec. -/
def contactCategoryKeys : List String :=
  ["emails", "phones", "linkedin_urls", "github_urls", "websites",
   "twitter", "instagram", "facebook", "whatsapp", "telegram",
   "birthday", "skype", "youtube"]

/-! ## DataExtractor._extract_contact_info_from_page
(src/scraper/data_extractor.py:578-623): search the visible text for a
profile URL with the two page patterns in order, then the page HTML;
prefix https when the scheme is missing; the result is a dict holding
only the key linkedin_url, or nothing. -/

def pageUrlFix (u : String) : String :=
  if pyStartsWith "http" u then u else "https://www." ++ u

def searchPagePats (text : String) : Option String :=
  match reSearch true false pageLinkedinPattern1 text with
  | some u => some (pageUrlFix u)
  | none =>
    match reSearch true false pageLinkedinPattern2 text with
    | some u => some (pageUrlFix u)
    | none => none

def extractContactInfoFromPage (allText pageHtml : String) : Option String :=
  match searchPagePats allText with
  | some u => some u
  | none => searchPagePats pageHtml

/-! ## ScrapeAgent._extract_contact_info (src/agents/scrape_agent.py:194-324)
and the contact-info steps of scrape_profile (lines 83-99).

The browser environment is modelled by a record of the observations the
code makes: the current URL, whether a contact-info control is found and
clickable, whether the modal appears and its text, whether the overlay
navigation succeeds and the overlay text, and the main page text and
HTML used by the page fallback.  The second component of the result
records which extraction methods were attempted, in order. -/

structure ScrapeEnv where
  currentUrl : String
  linkFound : Bool
  clickOk : Bool
  modalAppears : Bool
  modalText : Option String
  overlayNavOk : Bool
  overlayText : String
  pageText : String
  pageHtml : String

inductive Method where
  | clickButton
  | overlayNav
deriving DecidableEq, Repr

/-- Method 1: click the contact-info control, wait for the modal, parse
its inner text; a result is returned only when the parse is non-empty. -/
def contactMethod1 (env : ScrapeEnv) : Option CDict :=
  if env.linkFound && env.clickOk && env.modalAppears then
    match env.modalText with
    | some t =>
      if t ≠ "" then
        if parseContactInfo t ≠ [] then some (parseContactInfo t) else none
      else none
    | none => none
  else none

/-- Method 2: navigate to the overlay URL, parse the page text. -/
def contactMethod2 (env : ScrapeEnv) : Option CDict :=
  if env.overlayNavOk then
    if env.overlayText ≠ "" then
      if parseContactInfo env.overlayText ≠ [] then
        some (parseContactInfo env.overlayText)
      else none
    else none
  else none

/-- The body of _extract_contact_info: requires a profile URL, then
tries the button-click method and only on its failure the overlay
navigation.  The trace lists the methods attempted in order. -/
def extractContactInfo (env : ScrapeEnv) : Option CDict × List Method :=
  if ¬ containsSub "/in/" env.currentUrl then (none, [])
  else
    match contactMethod1 env with
    | some ci => (some ci, [Method.clickButton])
    | none =>
      match contactMethod2 env with
      | some ci => (some ci, [Method.clickButton, Method.overlayNav])
      | none => (none, [Method.clickButton, Method.overlayNav])

/-- The contact-info steps of scrape_profile: when the modal and overlay
result is missing or holds at most one key, fall back to the page scan;
attach whatever is truthy. -/
def attachContactInfo (env : ScrapeEnv) : Option CDict :=
  match
    (if (extractContactInfo env).1 = none ∨
        (((extractContactInfo env).1).getD []).length ≤ 1 then
      match extractContactInfoFromPage env.pageText env.pageHtml with
      | some url => some [("linkedin_url", Val.vs url)]
      | none => (extractContactInfo env).1
    else (extractContactInfo env).1) with
  | some d => if d ≠ [] then some d else none
  | none => none

/-! ## DataExtractor._calculate_completeness
(src/scraper/data_extractor.py:860-881)

The seven tracked fields with Python truthiness: an absent or empty
string is falsy, an empty list is falsy.  Python computes
int((filled / 7) * 100) in floats; for every filled in 0..7 that equals
the floor of filled * 100 / 7, so the score is modelled by natural
division. -/

structure CProfile where
  name : Option String
  headline : Option String
  location : Option String
  about : Option String
  experience : List Experience
  education : List (String × Option String)
  skills : List String

/-- Python truthiness of an optional string field. -/
def truthyStr : Option String → Bool
  | some s => s ≠ ""
  | none => false

/-- The seven field-truthiness flags, in source order. -/
def fieldFlags (p : CProfile) : List Bool :=
  [truthyStr p.name, truthyStr p.headline, truthyStr p.location,
   truthyStr p.about, ¬ p.experience.isEmpty, ¬ p.education.isEmpty,
   ¬ p.skills.isEmpty]

def filledCount (p : CProfile) : Nat := (fieldFlags p).count true

def calculateCompleteness (p : CProfile) : Nat :=
  filledCount p * 100 / 7

/-! ## ScrapeAgent._adaptive_delay (src/agents/scrape_agent.py:361-380)

Returns the pair (delay_min, delay_max) from which random.uniform draws.
Python floats are modelled by rationals; the scale factors 1.5 and 2.0
and the progress comparisons involved in the claims are exact in both
representations. -/

def adaptiveDelayRange (current total : Nat) (baseMin baseMax : ℚ) :
    ℚ × ℚ :=
  let progressFactor : ℚ := (current : ℚ) / (total : ℚ)
  if progressFactor > 7/10 then (baseMin * (3/2), baseMax * (3/2))
  else if progressFactor > 9/10 then (baseMin * 2, baseMax * 2)
  else (baseMin, baseMax)

/-! ## BrowserController.navigate (src/scraper/browser_controller.py:211-295)

Timeouts are in milliseconds.  One attempt ends in one of the outcomes
below; the loop retries only on a timeout, updating the timeout to
int(current_timeout * 1.8) + random.randint(2000, 5000).  For timeout
values far below 2^52 the float product truncates to the floor of
9 * t / 5, so the update is modelled with natural division.  The
environment gives each attempt number its outcome and its jitter draw.
The result records the navigate return value and, per attempt, the
timeout used and the outcome. -/

inductive NavOutcome where
  | timeoutErr
  | otherErr
  | captchaUnhandled
  | blockedRemediated
  | blockedPersist
  | ok
deriving DecidableEq, Repr

def navNextTimeout (t j : Nat) : Nat := 9 * t / 5 + j

def navigateLoop (outcome : Nat → NavOutcome) (jitter : Nat → Nat) :
    Nat → Nat → Nat → Bool × List (Nat × NavOutcome)
  | 0, _, _ => (false, [])
  | fuel+1, attempt, timeout =>
    match outcome attempt with
    | .timeoutErr =>
      let rest := navigateLoop outcome jitter fuel (attempt+1)
        (navNextTimeout timeout (jitter attempt))
      (rest.1, (timeout, NavOutcome.timeoutErr) :: rest.2)
    | .ok => (true, [(timeout, NavOutcome.ok)])
    | .blockedRemediated => (true, [(timeout, NavOutcome.blockedRemediated)])
    | .blockedPersist => (false, [(timeout, NavOutcome.blockedPersist)])
    | .captchaUnhandled => (false, [(timeout, NavOutcome.captchaUnhandled)])
    | .otherErr => (false, [(timeout, NavOutcome.otherErr)])

/-- navigate(url, wait_until, timeout, max_retries): attempts are
numbered from 1; at most max_retries attempts run. -/
def navigate (outcome : Nat → NavOutcome) (jitter : Nat → Nat)
    (timeout maxRetries : Nat) : Bool × List (Nat × NavOutcome) :=
  navigateLoop outcome jitter maxRetries 1 timeout

/-! ## ValidationAgent.validate_profile (src/agents/validation_agent.py:25-87)

The profile fields the validator reads.  The experience and skills
values may be non-list in Python; the model keeps the two observations
the code makes of them: truthiness and listness. -/

inductive ListyVal where
  | lst (xs : List String)
  | other (truthy : Bool)
deriving DecidableEq, Repr

def ListyVal.truthy : ListyVal → Bool
  | .lst xs => ! xs.isEmpty
  | .other t => t

def ListyVal.isList : ListyVal → Bool
  | .lst _ => true
  | .other _ => false

structure VProfile where
  profile_url : Option String
  name : Option String
  about : Option String
  experience : Option ListyVal
  skills : Option ListyVal

structure VReport where
  is_valid : Bool
  errors : List String
  warnings : List String
  score : Int
deriving DecidableEq, Repr

/-- The name-format check _is_valid_name: strip, 2..200 characters, at
least one letter, digit count not above 30 percent of the length.  The
float threshold len * 0.3 rounds to the rational value for every length
below 2^47, so the digit test is the exact rational comparison. -/
def isValidName (name0 : String) : Bool :=
  let name := pyStrip name0
  if name.length < 2 then false
  else if name.length > 200 then false
  else if ¬ name.toList.any Char.isAlpha then false
  else if 10 * (name.toList.filter Char.isDigit).length > 3 * name.length
  then false
  else true

/-- Python truthiness of the .get of an optional field. -/
def truthyOpt : Option String → Bool
  | some s => s != ""
  | none => false

/-- A conditional deduction: the given points when the flag holds. -/
def ded (b : Bool) (k : Int) : Int := if b then k else 0

def validateProfile (p : VProfile) : VReport :=
  -- required fields, in order profile_url then name
  let urlMissing := ! truthyOpt p.profile_url
  let nameMissing := ! truthyOpt p.name
  let e1 : List String :=
    (if urlMissing then ["Missing required field: profile_url"] else []) ++
    (if nameMissing then ["Missing required field: name"] else [])
  let d1 : Int := ded urlMissing 20 + ded nameMissing 20
  -- name format (warning only)
  let nameFmtBad := match p.name with
    | some s => (s != "") && ! isValidName s
    | none => false
  let w1 : List String := if nameFmtBad then ["Invalid name format"] else []
  let d2 : Int := ded nameFmtBad 5
  -- URL prefix
  let urlBad := match p.profile_url with
    | some u => (u != "") && ! pyStartsWith "https://www.linkedin.com" u
    | none => false
  let e2 : List String := if urlBad then ["Invalid LinkedIn URL"] else []
  let d3 : Int := ded urlBad 20
  -- about length (warning only)
  let aboutShort := match p.about with
    | some a => (a != "") && decide (a.length < 20)
    | none => false
  let w2 : List String := if aboutShort then ["Very short about section"]
    else []
  let d4 : Int := ded aboutShort 10
  -- experience listness (error text, validity unchanged)
  let expVal := p.experience.getD (ListyVal.lst [])
  let expBad := expVal.truthy && ! expVal.isList
  let e3 : List String := if expBad then ["Invalid experience format"]
    else []
  let d5 : Int := ded expBad 10
  -- skills listness (error text, validity unchanged)
  let skillsVal := p.skills.getD (ListyVal.lst [])
  let skillsBad := skillsVal.truthy && ! skillsVal.isList
  let e4 : List String := if skillsBad then ["Invalid skills format"]
    else []
  let d6 : Int := ded skillsBad 10
  { is_valid := ! (urlMissing || nameMissing || urlBad),
    errors := e1 ++ e2 ++ e3 ++ e4,
    warnings := w1 ++ w2,
    score := max 0 (100 - d1 - d2 - d3 - d4 - d5 - d6) }

/-! ## SearchAgent.search_profiles (src/agents/search_agent.py:23-82)

The listing environment gives, per page number, the deduplicated links
the page yields and whether a next-page control exists.  The fuel
encodes the page counter bound page <= max_pages with
max_pages = max_results / 10 + 2. -/

def collectPage [DecidableEq α] (acc : List α) (links : List α)
    (maxResults : Nat) : List α :=
  links.foldl (fun a l =>
    if l ∉ a ∧ a.length < maxResults then a ++ [l] else a) acc

def searchLoop [DecidableEq α] (pageLinks : Nat → List α)
    (hasNext : Nat → Bool) (maxResults : Nat) :
    Nat → Nat → List α → List α
  | 0, _, acc => acc
  | fuel+1, page, acc =>
    if acc.length < maxResults then
      let acc2 := collectPage acc (pageLinks page) maxResults
      if hasNext page then
        searchLoop pageLinks hasNext maxResults fuel (page+1) acc2
      else acc2
    else acc

def searchProfiles [DecidableEq α] (pageLinks : Nat → List α)
    (hasNext : Nat → Bool) (maxResults : Nat) : List α :=
  (searchLoop pageLinks hasNext maxResults (maxResults / 10 + 2) 1
    []).take maxResults

/-! # Claim theorems -/

/-- C1, counterexample.  On the scenario text the experience extractor
does not return exactly one entry with title Senior Engineer and company
Acme Inc, 2020-2023: it returns three title-only entries, because the
company line itself passes the new-entry test (noise-free and longer
than 5 characters). -/
theorem claim_C1_counterexample :
    ¬ ((extractExperience
          "Experience\nSenior Engineer\nAcme Inc, 2020-2023\nBuilt systems\nEducation").length
            = 1 ∧
       ((extractExperience
          "Experience\nSenior Engineer\nAcme Inc, 2020-2023\nBuilt systems\nEducation").head?.map
            Experience.title) = some "Senior Engineer" ∧
       ((extractExperience
          "Experience\nSenior Engineer\nAcme Inc, 2020-2023\nBuilt systems\nEducation").head?.bind
            Experience.company) = some "Acme Inc, 2020-2023") := by
  decide

/-- C1, amended.  On the scenario text the extractor returns four
entries, each holding only a title: Senior Engineer, then
Acme Inc, 2020-2023, then Built systems twice - the break at the
Education header appends the current entry and the post-loop flush
appends it once more.  It consumes no lines at or after the Education
header: any continuation of the line list after Education leaves the
result unchanged. -/
theorem claim_C1_amended :
    extractExperience
        "Experience\nSenior Engineer\nAcme Inc, 2020-2023\nBuilt systems\nEducation"
      = [⟨"Senior Engineer", none, none, none⟩,
         ⟨"Acme Inc, 2020-2023", none, none, none⟩,
         ⟨"Built systems", none, none, none⟩,
         ⟨"Built systems", none, none, none⟩] ∧
    ∀ extra : List String,
      expRun (["Experience", "Senior Engineer", "Acme Inc, 2020-2023",
        "Built systems", "Education"] ++ extra)
      = [⟨"Senior Engineer", none, none, none⟩,
         ⟨"Acme Inc, 2020-2023", none, none, none⟩,
         ⟨"Built systems", none, none, none⟩,
         ⟨"Built systems", none, none, none⟩] :=
  ⟨by decide, fun _ => rfl⟩

/-- C2, counterexample.  On the contact text holding only the email and
the phone, the websites category is not the placeholder: the bare-domain
classifier also matches the domain of the email. -/
theorem claim_C2_counterexample :
    (parseContactInfo "john@acme.com\n+1 415 555 0100").lookup "websites"
      ≠ some (Val.vl ["N/A"]) := by
  decide

/-- C2, amended.  parse_contact_info on the scenario text returns
emails [john@acme.com] and phones [+1 415 555 0100] as claimed, but
websites is [acme.com] (the domain of the email matches the bare-domain
classifier) and twitter is [acme] (the at-sign of the email matches the
twitter-handle classifier); every remaining category is the
placeholder. -/
theorem claim_C2_amended :
    parseContactInfo "john@acme.com\n+1 415 555 0100" =
      [("raw_text", Val.vs "john@acme.com\n+1 415 555 0100"),
       ("emails", Val.vl ["john@acme.com"]),
       ("phones", Val.vl ["+1 415 555 0100"]),
       ("linkedin_urls", Val.vl ["N/A"]),
       ("github_urls", Val.vl ["N/A"]),
       ("websites", Val.vl ["acme.com"]),
       ("twitter", Val.vl ["acme"]),
       ("instagram", Val.vl ["N/A"]),
       ("facebook", Val.vl ["N/A"]),
       ("whatsapp", Val.vl ["N/A"]),
       ("telegram", Val.vl ["N/A"]),
       ("birthday", Val.vl ["N/A"]),
       ("skype", Val.vl ["N/A"]),
       ("youtube", Val.vl ["N/A"]),
       ("twitter_url", Val.vl ["N/A"]),
       ("linkedin_url", Val.vs "N/A")] := by
  decide

/-- C5, code bug.  At current 19 of total 20 the progress factor is
0.95, yet the delay range is scaled by 1.5 and not by 2.0: the branch
for progress above 0.9 is shadowed by the branch for progress above 0.7
and can never run, contradicting its own Last 10 percent comment. -/
theorem claim_C5_failing :
    adaptiveDelayRange 19 20 10 20 = (15, 30) ∧
    adaptiveDelayRange 19 20 10 20 ≠ (20, 40) := by
  constructor
  · norm_num [adaptiveDelayRange]
  · norm_num [adaptiveDelayRange]

/-- C10.  parse_contact_info on empty input returns the empty mapping,
with no category list and no raw-text entry; the except branch returns
only the raw text and the error text (and the empty mapping when the
input was empty), again with no category list. -/
theorem claim_C10_error_shapes :
    parseContactInfo "" = [] ∧
    (∀ k, k ∈ "raw_text" :: contactCategoryKeys →
      (parseContactInfo "").lookup k = none) ∧
    (∀ t e, t ≠ "" →
      parseContactInfoOnError t e =
        [("raw_text", Val.vs t), ("error", Val.vs e)] ∧
      ∀ k ∈ contactCategoryKeys,
        (parseContactInfoOnError t e).lookup k = none) ∧
    (∀ e, parseContactInfoOnError "" e = []) := by
  refine ⟨rfl, ?_, ?_, ?_⟩
  · intro k _
    rfl
  · intro t e ht
    have hne : (t ≠ "") = True := by simp [ht]
    constructor
    · simp [parseContactInfoOnError, ht]
    · intro k hk
      fin_cases hk <;> simp [parseContactInfoOnError, ht, List.lookup]
  · intro e
    simp [parseContactInfoOnError]

/-- C10, witness: the theorem applied at a concrete nonempty text and a
concrete error, with the lookup read at the emails key. -/
theorem claim_C10_error_shapes_witness :
    parseContactInfoOnError "x" "boom" =
      [("raw_text", Val.vs "x"), ("error", Val.vs "boom")] ∧
    (parseContactInfoOnError "x" "boom").lookup "emails" = none := by
  have h := (claim_C10_error_shapes.2.2.1 "x" "boom" (by decide))
  exact ⟨h.1, h.2 "emails" (by decide)⟩

/-- Counting true entries is monotone under pointwise implication. -/
lemma countTrue_mono : ∀ {l1 l2 : List Bool},
    List.Forall₂ (fun a b => a = true → b = true) l1 l2 →
    l1.count true ≤ l2.count true := by
  intro l1 l2 h
  induction h with
  | nil => simp
  | cons hab htl ih =>
    rename_i a b l1t l2t
    cases ha : a <;> cases hb : b
    all_goals simp_all [List.count_cons]
    all_goals omega

/-- C4.  The completeness score is the truncated integer percentage of
the filled count over seven, lies in 0..100, and is monotone: making
more of the seven tracked fields truthy (pointwise) never lowers it. -/
theorem claim_C4_completeness :
    ∀ p : CProfile,
      calculateCompleteness p = filledCount p * 100 / 7 ∧
      calculateCompleteness p ≤ 100 ∧
      ∀ q : CProfile,
        List.Forall₂ (fun a b => a = true → b = true)
          (fieldFlags p) (fieldFlags q) →
        calculateCompleteness p ≤ calculateCompleteness q := by
  intro p
  refine ⟨rfl, ?_, ?_⟩
  · have h7 : filledCount p ≤ 7 := by
      have hlen : (fieldFlags p).length = 7 := rfl
      have hc : filledCount p = (fieldFlags p).count true := rfl
      have := List.count_le_length (a := true) (l := fieldFlags p)
      omega
    calc calculateCompleteness p = filledCount p * 100 / 7 := rfl
      _ ≤ 7 * 100 / 7 :=
          Nat.div_le_div_right (Nat.mul_le_mul_right _ h7)
      _ = 100 := by norm_num
  · intro q hq
    exact Nat.div_le_div_right (Nat.mul_le_mul_right _ (countTrue_mono hq))

/-- C4, witness: the theorem applied to the empty profile against a
profile with a name. -/
theorem claim_C4_completeness_witness :
    calculateCompleteness ⟨none, none, none, none, [], [], []⟩ ≤
    calculateCompleteness ⟨some "Ada Lovelace", none, none, none, [], [], []⟩ :=
  (claim_C4_completeness ⟨none, none, none, none, [], [], []⟩).2.2
    ⟨some "Ada Lovelace", none, none, none, [], [], []⟩
    (by simp [fieldFlags, truthyStr])

/-- Appending a fresh element preserves distinctness. -/
lemma appendSingleton_nodup [DecidableEq α] {acc : List α} {l : α}
    (h : acc.Nodup) (hl : l ∉ acc) : (acc ++ [l]).Nodup := by
  simp [List.nodup_append, h, hl]

/-- The per-page collection step preserves distinctness. -/
lemma collectPage_nodup [DecidableEq α] (m : Nat) :
    ∀ (links acc : List α), acc.Nodup → (collectPage acc links m).Nodup := by
  intro links
  induction links with
  | nil => intro acc h; simpa [collectPage] using h
  | cons l ls ih =>
    intro acc h
    have hstep :
        (if l ∉ acc ∧ acc.length < m then acc ++ [l] else acc).Nodup := by
      split_ifs with hcond
      · exact appendSingleton_nodup h hcond.1
      · exact h
    have hrw : collectPage acc (l :: ls) m =
        collectPage (if l ∉ acc ∧ acc.length < m then acc ++ [l] else acc)
          ls m := by
      simp [collectPage]
    rw [hrw]
    exact ih _ hstep

/-- The page loop preserves distinctness. -/
lemma searchLoop_nodup [DecidableEq α] (pl : Nat → List α)
    (hn : Nat → Bool) (m : Nat) : ∀ (fuel page : Nat) (acc : List α),
    acc.Nodup → (searchLoop pl hn m fuel page acc).Nodup := by
  intro fuel
  induction fuel with
  | zero => intro page acc h; simpa [searchLoop] using h
  | succ f ih =>
    intro page acc h
    simp only [searchLoop]
    split_ifs with h1 h2
    · exact ih (page+1) _ (collectPage_nodup m _ _ h)
    · exact collectPage_nodup m _ _ h
    · exact h

/-- A listing page for the C8 scenario: nine distinct links per page. -/
def c8PageLinks (n : Nat) : List Nat :=
  (List.range 9).map (fun j => 9 * n + j)

/-- Pagination works for the first three pages of the C8 scenario. -/
def c8HasNext (n : Nat) : Bool := decide (n < 3)

/-- C8.  The discovery loop never returns more identifiers than
requested and never returns duplicates; on a listing yielding 9 unique
links per page with pagination working for 3 pages, a request for 25
collects exactly 25, not 27. -/
theorem claim_C8_search :
    (∀ (α : Type) [DecidableEq α] (pageLinks : Nat → List α)
        (hasNext : Nat → Bool) (maxResults : Nat),
      (searchProfiles pageLinks hasNext maxResults).Nodup ∧
      (searchProfiles pageLinks hasNext maxResults).length ≤ maxResults) ∧
    (searchProfiles c8PageLinks c8HasNext 25).length = 25 := by
  constructor
  · intro α _ pl hn mr
    constructor
    · exact ((List.take_sublist _ _).nodup
        (searchLoop_nodup pl hn mr _ 1 [] List.nodup_nil))
    · simp [searchProfiles, List.length_take]
  · decide

/-- The attempt trace is at most the given fuel long. -/
lemma navigateLoop_length (o : Nat → NavOutcome) (j : Nat → Nat) :
    ∀ (fuel a t : Nat), (navigateLoop o j fuel a t).2.length ≤ fuel := by
  intro fuel
  induction fuel with
  | zero => intro a t; simp [navigateLoop]
  | succ f ih =>
    intro a t
    cases h : o a <;> simp [navigateLoop, h]
    · exact ih _ _

/-- A nonempty attempt trace starts with the timeout argument. -/
lemma navigateLoop_head (o : Nat → NavOutcome) (j : Nat → Nat) :
    ∀ (fuel a t : Nat) (p : Nat × NavOutcome),
    (navigateLoop o j fuel a t).2[0]? = some p → p.1 = t := by
  intro fuel
  cases fuel with
  | zero => intro a t p hp; simp [navigateLoop] at hp
  | succ f =>
    intro a t p hp
    cases h : o a <;> simp [navigateLoop, h] at hp <;> simp [← hp]

/-- Only a timeout is followed by another attempt, and the next attempt
uses the updated timeout. -/
lemma navigateLoop_step (o : Nat → NavOutcome) (j : Nat → Nat) :
    ∀ (fuel a t i ti ti1 : Nat) (oi oi1 : NavOutcome),
    (navigateLoop o j fuel a t).2[i]? = some (ti, oi) →
    (navigateLoop o j fuel a t).2[i+1]? = some (ti1, oi1) →
    oi = NavOutcome.timeoutErr ∧ ti1 = navNextTimeout ti (j (a + i)) := by
  intro fuel
  induction fuel with
  | zero => intro a t i ti ti1 oi oi1 h1 h2; simp [navigateLoop] at h1
  | succ f ih =>
    intro a t i ti ti1 oi oi1 h1 h2
    cases h : o a
    case timeoutErr =>
      simp only [navigateLoop, h] at h1 h2
      cases i with
      | zero =>
        simp at h1 h2
        obtain ⟨hti, hoi⟩ := h1
        refine ⟨hoi.symm, ?_⟩
        have hhead := navigateLoop_head o j f (a+1)
          (navNextTimeout t (j a)) (ti1, oi1) h2
        simp at hhead
        subst hti
        simpa [Nat.add_zero] using hhead
      | succ k =>
        simp at h1 h2
        have hrec := ih (a+1) (navNextTimeout t (j a)) k ti ti1 oi oi1 h1 h2
        refine ⟨hrec.1, ?_⟩
        have harith : a + 1 + k = a + (k + 1) := by omega
        rw [← harith]
        exact hrec.2
    all_goals
      simp only [navigateLoop, h] at h1 h2
      simp at h2

/-- When every attempt times out, the loop ends in failure. -/
lemma navigateLoop_allTimeout (o : Nat → NavOutcome) (j : Nat → Nat)
    (hall : ∀ n, o n = NavOutcome.timeoutErr) :
    ∀ (fuel a t : Nat), (navigateLoop o j fuel a t).1 = false := by
  intro fuel
  induction fuel with
  | zero => intro a t; simp [navigateLoop]
  | succ f ih =>
    intro a t
    simp only [navigateLoop, hall a]
    exact ih _ _

/-- C6.  navigate performs at most max_retries attempts; whenever an
attempt is followed by another, the earlier one ended in a timeout and
the later one uses a timeout of int(1.8 times the previous) plus the
jitter drawn by randint(2000, 5000) milliseconds, that is between 2 and
5 seconds; and when every attempt times out the call returns false. -/
theorem claim_C6_navigate :
    ∀ (outcome : Nat → NavOutcome) (jitter : Nat → Nat) (t0 mr : Nat),
      (∀ n, 2000 ≤ jitter n ∧ jitter n ≤ 5000) →
      ((navigate outcome jitter t0 mr).2.length ≤ mr) ∧
      (∀ i ti ti1 oi oi1,
        (navigate outcome jitter t0 mr).2[i]? = some (ti, oi) →
        (navigate outcome jitter t0 mr).2[i+1]? = some (ti1, oi1) →
        oi = NavOutcome.timeoutErr ∧
        ti1 = 9 * ti / 5 + jitter (1 + i) ∧
        2000 ≤ jitter (1 + i) ∧ jitter (1 + i) ≤ 5000) ∧
      ((∀ n, outcome n = NavOutcome.timeoutErr) →
        (navigate outcome jitter t0 mr).1 = false) := by
  intro o j t0 mr hj
  refine ⟨navigateLoop_length o j mr 1 t0, ?_, ?_⟩
  · intro i ti ti1 oi oi1 h1 h2
    have hstep := navigateLoop_step o j mr 1 t0 i ti ti1 oi oi1 h1 h2
    exact ⟨hstep.1, hstep.2, (hj (1+i)).1, (hj (1+i)).2⟩
  · intro hall
    exact navigateLoop_allTimeout o j hall mr 1 t0

/-- C6, witness: three attempts all timing out from 30000 ms with
jitter 3000: the second attempt uses 9 * 30000 / 5 + 3000 = 57000 and
navigate returns false. -/
theorem claim_C6_navigate_witness :
    (NavOutcome.timeoutErr = NavOutcome.timeoutErr ∧
      (57000 : Nat) = 9 * 30000 / 5 + 3000 ∧
      (2000 : Nat) ≤ 3000 ∧ (3000 : Nat) ≤ 5000) ∧
    (navigate (fun _ => NavOutcome.timeoutErr) (fun _ => 3000) 30000 3).1
      = false := by
  have h := claim_C6_navigate (fun _ => NavOutcome.timeoutErr)
    (fun _ => 3000) 30000 3 (fun n => by norm_num)
  exact ⟨h.2.1 0 30000 57000 NavOutcome.timeoutErr NavOutcome.timeoutErr
    (by decide) (by decide), h.2.2 (fun n => rfl)⟩



lemma ded_bounds (b : Bool) (k : Int) (hk : 0 ≤ k) :
    0 ≤ ded b k ∧ ded b k ≤ k := by
  cases b <;> simp [ded, hk]

lemma ded_false (k : Int) : ded false k = 0 := rfl

lemma ded_true (k : Int) : ded true k = k := rfl

lemma truthyOpt_some (s : String) : truthyOpt (some s) = (s != "") := rfl

lemma truthyOpt_none : truthyOpt none = false := rfl

/-- C7.  The validation score is always in 0..100; a missing or empty
name always yields is_valid false; and each missing required field
costs exactly 20 points: emptying a well-formed name or a well-formed
profile URL lowers the score by exactly 20. -/
theorem claim_C7_validate :
    ∀ p : VProfile,
      (0 ≤ (validateProfile p).score ∧ (validateProfile p).score ≤ 100) ∧
      (truthyOpt p.name = false → (validateProfile p).is_valid = false) ∧
      (∀ s, p.name = some s → isValidName s = true →
        (validateProfile { p with name := none }).score =
          (validateProfile p).score - 20) ∧
      (∀ u, p.profile_url = some u →
        pyStartsWith "https://www.linkedin.com" u = true →
        (validateProfile { p with profile_url := none }).score =
          (validateProfile p).score - 20) := by
  intro p
  refine ⟨?_, ?_, ?_, ?_⟩
  · unfold validateProfile
    dsimp only
    obtain ⟨hf0, hf1⟩ := ded_bounds (match p.name with
      | some s => (s != "") && ! isValidName s
      | none => false) 5 (by omega)
    obtain ⟨hb0, hb1⟩ := ded_bounds (match p.profile_url with
      | some u => (u != "") && ! pyStartsWith "https://www.linkedin.com" u
      | none => false) 20 (by omega)
    obtain ⟨hu0, hu1⟩ := ded_bounds (! truthyOpt p.profile_url) 20 (by omega)
    obtain ⟨hn0, hn1⟩ := ded_bounds (! truthyOpt p.name) 20 (by omega)
    obtain ⟨ha0, ha1⟩ := ded_bounds (match p.about with
      | some a => (a != "") && decide (a.length < 20)
      | none => false) 10 (by omega)
    obtain ⟨he0, he1⟩ := ded_bounds
      ((p.experience.getD (ListyVal.lst [])).truthy &&
        ! (p.experience.getD (ListyVal.lst [])).isList) 10 (by omega)
    obtain ⟨hs0, hs1⟩ := ded_bounds
      ((p.skills.getD (ListyVal.lst [])).truthy &&
        ! (p.skills.getD (ListyVal.lst [])).isList) 10 (by omega)
    omega
  · intro h
    unfold validateProfile
    dsimp only
    simp [h]
  · intro s hs hvalid
    have hne : (s != "") = true := by
      have hs2 : s ≠ "" := by
        intro hemp
        subst hemp
        exact absurd hvalid (by decide)
      simpa using hs2
    rcases p with ⟨purl, pname, pabout, pexp, pskills⟩
    cases hs
    unfold validateProfile
    dsimp only
    simp only [truthyOpt_some, truthyOpt_none, hne, hvalid, Bool.not_true,
      Bool.not_false, Bool.and_false, ded_false, ded_true]
    obtain ⟨hb0, hb1⟩ := ded_bounds (match purl with
      | some u => (u != "") && ! pyStartsWith "https://www.linkedin.com" u
      | none => false) 20 (by omega)
    obtain ⟨ha0, ha1⟩ := ded_bounds (match pabout with
      | some a => (a != "") && decide (a.length < 20)
      | none => false) 10 (by omega)
    obtain ⟨he0, he1⟩ := ded_bounds
      ((pexp.getD (ListyVal.lst [])).truthy &&
        ! (pexp.getD (ListyVal.lst [])).isList) 10 (by omega)
    obtain ⟨hs0, hs1⟩ := ded_bounds
      ((pskills.getD (ListyVal.lst [])).truthy &&
        ! (pskills.getD (ListyVal.lst [])).isList) 10 (by omega)
    obtain ⟨hu0, hu1⟩ := ded_bounds (! truthyOpt purl) 20 (by omega)
    omega
  · intro u hu hpre
    have hne : (u != "") = true := by
      have hu2 : u ≠ "" := by
        intro hemp
        subst hemp
        exact absurd hpre (by decide)
      simpa using hu2
    rcases p with ⟨purl, pname, pabout, pexp, pskills⟩
    cases hu
    unfold validateProfile
    dsimp only
    simp only [truthyOpt_some, truthyOpt_none, hne, hpre, Bool.not_true,
      Bool.not_false, Bool.and_false, ded_false, ded_true]
    obtain ⟨hf0, hf1⟩ := ded_bounds (match pname with
      | some s => (s != "") && ! isValidName s
      | none => false) 5 (by omega)
    obtain ⟨hn0, hn1⟩ := ded_bounds (! truthyOpt pname) 20 (by omega)
    obtain ⟨ha0, ha1⟩ := ded_bounds (match pabout with
      | some a => (a != "") && decide (a.length < 20)
      | none => false) 10 (by omega)
    obtain ⟨he0, he1⟩ := ded_bounds
      ((pexp.getD (ListyVal.lst [])).truthy &&
        ! (pexp.getD (ListyVal.lst [])).isList) 10 (by omega)
    obtain ⟨hs0, hs1⟩ := ded_bounds
      ((pskills.getD (ListyVal.lst [])).truthy &&
        ! (pskills.getD (ListyVal.lst [])).isList) 10 (by omega)
    omega

/-- C7, witness: the theorem applied at a concrete profile with a valid
name and URL; dropping the name makes the record invalid and costs
exactly 20 points. -/
theorem claim_C7_validate_witness :
    (validateProfile ⟨some "https://www.linkedin.com/in/x", none, none,
      none, none⟩).is_valid = false ∧
    (validateProfile ⟨some "https://www.linkedin.com/in/x", none, none,
      none, none⟩).score =
      (validateProfile ⟨some "https://www.linkedin.com/in/x",
        some "John Smith", none, none, none⟩).score - 20 := by
  refine ⟨(claim_C7_validate _).2.1 (by decide), ?_⟩
  exact (claim_C7_validate ⟨some "https://www.linkedin.com/in/x",
    some "John Smith", none, none, none⟩).2.2.1 "John Smith" rfl (by decide)



lemma pySet_ne_nil {l : List String} (h : l ≠ []) : pySet l ≠ [] := by
  cases l with
  | nil => exact absurd rfl h
  | cons x xs => simp [pySet, dedupFirst]

lemma pySetMap_ne_nil (f : String → String) {l : List String}
    (h : l ≠ []) : pySet (l.map f) ≠ [] :=
  pySet_ne_nil (by simpa using h)

lemma guardNA_ne_nil (X Y : List String) (hY : X ≠ [] → Y ≠ []) :
    (if X.isEmpty then ["N/A"] else Y) ≠ [] := by
  by_cases h : X.isEmpty
  · simp [h]
  · simp only [if_neg h]
    exact hY (by simpa [List.isEmpty_iff] using h)

lemma parseContactInfo_categories (t : String) (ht : t ≠ "") :
    ∀ k ∈ contactCategoryKeys,
    ∃ l, (parseContactInfo t).lookup k = some (Val.vl l) ∧ l ≠ [] := by
  intro k hk
  unfold parseContactInfo
  rw [if_neg ht]
  fin_cases hk
  · exact ⟨_, rfl, guardNA_ne_nil _ _ (fun h => h)⟩
  · exact ⟨_, rfl, guardNA_ne_nil _ _ (fun h => pySetMap_ne_nil _ h)⟩
  · exact ⟨_, rfl, guardNA_ne_nil _ _ (fun h => pySet_ne_nil h)⟩
  · exact ⟨_, rfl, guardNA_ne_nil _ _ (fun h => pySet_ne_nil h)⟩
  · exact ⟨_, rfl, guardNA_ne_nil _ _ (fun h => pySet_ne_nil h)⟩
  · exact ⟨_, rfl, guardNA_ne_nil _ _ (fun h => pySet_ne_nil h)⟩
  · exact ⟨_, rfl, guardNA_ne_nil _ _ (fun h => pySet_ne_nil h)⟩
  · exact ⟨_, rfl, guardNA_ne_nil _ _ (fun h => pySet_ne_nil h)⟩
  · exact ⟨_, rfl, guardNA_ne_nil _ _ (fun h => pySetMap_ne_nil _ h)⟩
  · exact ⟨_, rfl, guardNA_ne_nil _ _ (fun h => pySet_ne_nil h)⟩
  · exact ⟨_, rfl, guardNA_ne_nil _ _ (fun h => pySetMap_ne_nil _ h)⟩
  · exact ⟨_, rfl, guardNA_ne_nil _ _ (fun h => pySet_ne_nil h)⟩
  · exact ⟨_, rfl, guardNA_ne_nil _ _ (fun h => pySet_ne_nil h)⟩

lemma parseContactInfo_ne_nil (t : String) (ht : t ≠ "") :
    parseContactInfo t ≠ [] := by
  unfold parseContactInfo
  rw [if_neg ht]
  intro hq
  simp at hq

lemma contactMethod1_parse (env : ScrapeEnv) (ci : CDict)
    (h : contactMethod1 env = some ci) :
    ∃ t, t ≠ "" ∧ ci = parseContactInfo t := by
  unfold contactMethod1 at h
  by_cases hb : (env.linkFound && env.clickOk && env.modalAppears) = true
  · rw [if_pos hb] at h
    rcases hm : env.modalText with _ | t
    · rw [hm] at h
      simp at h
    · rw [hm] at h
      dsimp only at h
      by_cases htne : t ≠ ""
      · rw [if_pos htne] at h
        by_cases hpn : parseContactInfo t ≠ []
        · rw [if_pos hpn] at h
          exact ⟨t, htne, by simpa using h.symm⟩
        · rw [if_neg hpn] at h
          simp at h
      · rw [if_neg htne] at h
        simp at h
  · rw [if_neg hb] at h
    simp at h

lemma contactMethod2_parse (env : ScrapeEnv) (ci : CDict)
    (h : contactMethod2 env = some ci) :
    ∃ t, t ≠ "" ∧ ci = parseContactInfo t := by
  unfold contactMethod2 at h
  by_cases hb : env.overlayNavOk = true
  · rw [if_pos hb] at h
    by_cases htne : env.overlayText ≠ ""
    · rw [if_pos htne] at h
      by_cases hpn : parseContactInfo env.overlayText ≠ []
      · rw [if_pos hpn] at h
        exact ⟨env.overlayText, htne, by simpa using h.symm⟩
      · rw [if_neg hpn] at h
        simp at h
    · rw [if_neg htne] at h
      simp at h
  · rw [if_neg hb] at h
    simp at h

lemma extractContactInfo_parse (env : ScrapeEnv) (d : CDict)
    (h : (extractContactInfo env).1 = some d) :
    ∃ t, t ≠ "" ∧ d = parseContactInfo t := by
  unfold extractContactInfo at h
  split at h
  · simp at h
  · split at h
    · rename_i c1 hm1
      simp at h
      exact h ▸ contactMethod1_parse env c1 hm1
    · split at h
      · rename_i c2 hm2
        simp at h
        exact h ▸ contactMethod2_parse env c2 hm2
      · simp at h

/-- C3, amended.  Whenever scrape_profile attaches a contact-info
sub-record, either it came from parse_contact_info and then every
category list is present and non-empty, or it came from the page
fallback and then it holds only a linkedin_url entry and no category
list at all. -/
theorem claim_C3_attached_categories :
    ∀ (env : ScrapeEnv) (ci : CDict), attachContactInfo env = some ci →
      (∀ k ∈ contactCategoryKeys,
        ∃ l, ci.lookup k = some (Val.vl l) ∧ l ≠ []) ∨
      (∃ url, ci = [("linkedin_url", Val.vs url)]) := by
  intro env ci h
  unfold attachContactInfo at h
  rcases hext : (extractContactInfo env).1 with _ | d
  · rw [hext] at h
    rcases hpage : extractContactInfoFromPage env.pageText env.pageHtml
      with _ | url
    · rw [hpage] at h
      simp at h
    · rw [hpage] at h
      simp at h
      exact Or.inr ⟨url, h.symm⟩
  · obtain ⟨t, ht, hd⟩ := extractContactInfo_parse env d hext
    subst hd
    have hnn : parseContactInfo t ≠ [] := parseContactInfo_ne_nil t ht
    rw [hext] at h
    by_cases hlen : (parseContactInfo t).length ≤ 1
    · rw [if_pos (Or.inr (by simpa using hlen))] at h
      rcases hpage : extractContactInfoFromPage env.pageText env.pageHtml
        with _ | url
      · rw [hpage] at h
        simp [hnn] at h
        exact Or.inl (h ▸ parseContactInfo_categories t ht)
      · rw [hpage] at h
        simp at h
        exact Or.inr ⟨url, h.symm⟩
    · rw [if_neg (by simpa using hlen)] at h
      simp [hnn] at h
      exact Or.inl (h ▸ parseContactInfo_categories t ht)

/-- C3, counterexample.  A profile whose modal and overlay attempts all
fail but whose page text carries a bare profile URL gets a contact-info
sub-record holding only linkedin_url: the emails category (and every
other category list) is missing, refuting the claim that every attached
sub-record carries all category lists. -/
theorem claim_C3_counterexample :
    attachContactInfo
        ⟨"https://www.linkedin.com/in/jane", false, false, false, none,
          false, "", "Find me at linkedin.com/in/jane-doe", ""⟩ =
      some [("linkedin_url",
        Val.vs "https://www.linkedin.com/in/jane-doe")] ∧
    ((attachContactInfo
        ⟨"https://www.linkedin.com/in/jane", false, false, false, none,
          false, "", "Find me at linkedin.com/in/jane-doe", ""⟩).getD
      []).lookup "emails" = none := by
  constructor
  · decide
  · decide

/-- C3, witness: the amended theorem applied at the fallback
environment, landing in the page-fallback disjunct. -/
theorem claim_C3_attached_categories_witness :
    (∀ k ∈ contactCategoryKeys, ∃ l,
      ([("linkedin_url", Val.vs "https://www.linkedin.com/in/jane-doe")] :
        CDict).lookup k = some (Val.vl l) ∧ l ≠ []) ∨
    (∃ url,
      ([("linkedin_url", Val.vs "https://www.linkedin.com/in/jane-doe")] :
        CDict) = [("linkedin_url", Val.vs url)]) :=
  claim_C3_attached_categories
    ⟨"https://www.linkedin.com/in/jane", false, false, false, none,
      false, "", "Find me at linkedin.com/in/jane-doe", ""⟩
    [("linkedin_url", Val.vs "https://www.linkedin.com/in/jane-doe")]
    (by decide)

/-- C9, counterexample.  In an environment where the contact-info
control is present and the modal opens with text, the first (and only)
method attempted is the button click, not the overlay navigation,
refuting the claimed fast-path order. -/
theorem claim_C9_counterexample :
    ¬ ((extractContactInfo
          ⟨"https://www.linkedin.com/in/jane", true, true, true,
            some "Email\njohn@acme.com", true,
            "Contact info overlay", "", ""⟩).2.head?
            = some Method.overlayNav ∨
       (extractContactInfo
          ⟨"https://www.linkedin.com/in/jane", true, true, true,
            some "Email\njohn@acme.com", true,
            "Contact info overlay", "", ""⟩).2 = []) := by
  decide

/-- C9, amended.  The button-click-and-modal path is always attempted
first; the overlay navigation runs only when the click path produced
nothing; and scrape_profile keeps a parsed result with more than one
key without invoking the page-scan fallback (the fallback trigger is a
key-count floor, not a character-count floor). -/
theorem claim_C9_method_order :
    ∀ env : ScrapeEnv,
      ((extractContactInfo env).2 = [] ∨
        (extractContactInfo env).2.head? = some Method.clickButton) ∧
      (Method.overlayNav ∈ (extractContactInfo env).2 →
        contactMethod1 env = none) ∧
      (∀ ci, (extractContactInfo env).1 = some ci → 1 < ci.length →
        attachContactInfo env = some ci) := by
  intro env
  refine ⟨?_, ?_, ?_⟩
  · unfold extractContactInfo
    split
    · exact Or.inl rfl
    · split
      · exact Or.inr rfl
      · split
        · exact Or.inr rfl
        · exact Or.inr rfl
  · intro hmem
    unfold extractContactInfo at hmem
    split at hmem
    · simp at hmem
    · split at hmem
      · simp at hmem
      · rename_i hm1
        exact hm1
  · intro ci h1 hlen
    have hne : ci ≠ [] := by
      intro hq
      subst hq
      simp at hlen
    unfold attachContactInfo
    rw [h1]
    rw [if_neg ?hcond]
    case hcond =>
      simp
      omega
    simp [hne]

/-- C9, witness: in an environment where the click path finds no
control and the overlay fails, both methods are attempted in order and
the click method indeed produced nothing. -/
theorem claim_C9_method_order_witness :
    contactMethod1
      ⟨"x/in/y", false, false, false, none, false, "", "", ""⟩ = none :=
  (claim_C9_method_order
    ⟨"x/in/y", false, false, false, none, false, "", "", ""⟩).2.1
    (by decide)

end TRI
